import Mathlib

/-!
Shallow embedding of `internal/proxy/configuration.go` from the sso proxy
repository: the layered configuration model (section structs, defaults
provider, validation cascade, and loader), together with models of the
standard-library routines the validators call (`base64.StdEncoding.DecodeString`,
`net/url.Parse`, `net/http.Cookie.String`).

Errors are modelled by their message strings: `xerrors.Errorf("p: %w", e)` /
`xerrors.Errorf("p: %q", v)` become string concatenations, matching the
`Error()` rendering the repository's own tests compare against.
-/

deriving instance DecidableEq for Except

namespace SsoProxy

/-- Render of a Go `%q` escape for one character: a model of `strconv`
double-quote escaping, exact on the printable ASCII range used by this
configuration code. -/
def goQuoteChar (c : Char) : String :=
  if c = Char.ofNat 34 then "\\\""
  else if c = Char.ofNat 92 then "\\\\"
  else if c = Char.ofNat 10 then "\\n"
  else if c = Char.ofNat 13 then "\\r"
  else if c = Char.ofNat 9 then "\\t"
  else if 32 ≤ c.toNat ∧ c.toNat < 127 then String.mk [c]
  else "\\u" ++ toString c.toNat

/-- Model of Go `%q` applied to a string value: double-quoted, escaped. -/
def goQuote (s : String) : String :=
  "\"" ++ String.join (s.data.map goQuoteChar) ++ "\""

/- ## Go base64: model of `base64.StdEncoding.DecodeString`

Mirrors `encoding/base64.(*Encoding).decodeQuantum` for the standard
padded alphabet: 6-bit values for `A-Z a-z 0-9 + /`, `\n`/`\r` skipped,
`=` padding accepted only at quantum positions 2 and 3 and only at the end
of the input, and a `CorruptInputError` carrying the offending byte offset
otherwise.  A failure is `.error p` where `p` is that offset. -/

/-- The decode table of the standard base64 alphabet
(`base64.StdEncoding.decodeMap`). -/
def b64val (c : Char) : Option Nat :=
  if 65 ≤ c.toNat ∧ c.toNat ≤ 90 then some (c.toNat - 65)
  else if 97 ≤ c.toNat ∧ c.toNat ≤ 122 then some (c.toNat - 97 + 26)
  else if 48 ≤ c.toNat ∧ c.toNat ≤ 57 then some (c.toNat - 48 + 52)
  else if c = '+' then some 62
  else if c = '/' then some 63
  else none

/-- Convert one base64 quantum (up to four 6-bit values, zero-padded) into
its `dlen - 1` output bytes, as `decodeQuantum` does after the read loop. -/
def b64QuantumBytes (dbuf : List Nat) (dlen : Nat) : List Nat :=
  let d0 := dbuf.getD 0 0
  let d1 := dbuf.getD 1 0
  let d2 := dbuf.getD 2 0
  let d3 := dbuf.getD 3 0
  let val := d0 * 262144 + d1 * 4096 + d2 * 64 + d3
  [val / 65536 % 256, val / 256 % 256, val % 256].take (dlen - 1)

/-- After the final `=` of a quantum only newlines may remain
(`decodeQuantum`: trailing garbage is a `CorruptInputError` at the
position of the first leftover byte). -/
def b64AfterPad : List Char → Nat → Except Nat Unit
  | [], _ => .ok ()
  | c :: rest, si =>
    if c = Char.ofNat 10 ∨ c = Char.ofNat 13 then b64AfterPad rest (si + 1)
    else .error si

/-- A `=` read at quantum position 2 must be followed (newlines apart) by a
second `=` and then the end of the input. -/
def b64Pad2 : List Char → Nat → Except Nat Unit
  | [], si => .error si
  | c :: rest, si =>
    if c = Char.ofNat 10 ∨ c = Char.ofNat 13 then b64Pad2 rest (si + 1)
    else if c = '=' then b64AfterPad rest (si + 1)
    else .error si

/-- Main decode loop over the input characters: `rest` is what remains,
`si` its starting byte offset, `j` the number of 6-bit values collected in
the current quantum, `dbuf` those values, `acc` the decoded bytes so far. -/
def b64Main : List Char → Nat → Nat → List Nat → List Nat → Except Nat (List Nat)
  | [], si, j, _, acc =>
    if j = 0 then .ok acc else .error (si - j)
  | c :: rest, si, j, dbuf, acc =>
    match b64val c with
    | some v =>
      if j = 3 then
        b64Main rest (si + 1) 0 [] (acc ++ b64QuantumBytes (dbuf ++ [v]) 4)
      else
        b64Main rest (si + 1) (j + 1) (dbuf ++ [v]) acc
    | none =>
      if c = Char.ofNat 10 ∨ c = Char.ofNat 13 then
        b64Main rest (si + 1) j dbuf acc
      else if c = '=' then
        if j ≤ 1 then .error si
        else if j = 2 then
          match b64Pad2 rest (si + 1) with
          | .ok _ => .ok (acc ++ b64QuantumBytes dbuf 2)
          | .error p => .error p
        else
          match b64AfterPad rest (si + 1) with
          | .ok _ => .ok (acc ++ b64QuantumBytes dbuf 3)
          | .error p => .error p
      else .error si

/-- Model of `base64.StdEncoding.DecodeString`: the decoded bytes, or the
offset of the corrupt input byte. -/
def goBase64Decode (s : String) : Except Nat (List Nat) :=
  b64Main s.data 0 0 [] []

/-- `base64.CorruptInputError(p).Error()`. -/
def corruptInputErrorMsg (p : Nat) : String :=
  "illegal base64 data at input byte " ++ toString p

/- ## Go cookies: model of `(&http.Cookie{Name: n}).String()` -/

/-- `httpguts.IsTokenRune`: the HTTP token character set. -/
def isTokenChar (c : Char) : Bool :=
  c.isAlphanum ||
    [Char.ofNat 33, Char.ofNat 35, Char.ofNat 36, Char.ofNat 37, Char.ofNat 38,
     Char.ofNat 39, Char.ofNat 42, Char.ofNat 43, Char.ofNat 45, Char.ofNat 46,
     Char.ofNat 94, Char.ofNat 95, Char.ofNat 96, Char.ofNat 124,
     Char.ofNat 126].contains c

/-- `net/http.isCookieNameValid`: non-empty and all token characters. -/
def isCookieNameValid (n : String) : Bool :=
  !n.isEmpty && n.data.all isTokenChar

/-- Model of `(&http.Cookie{Name: n}).String()`: empty exactly when the
name is not a valid cookie name; otherwise it serializes `n` followed by
`=` (and nothing else, all other cookie fields being zero). -/
def goCookieString (n : String) : String :=
  if isCookieNameValid n then n ++ "=" else ""

/- ## Go URLs: model of `net/url.Parse`

Covers the features the configuration validators exercise: fragment and
query splitting, the control-character check, `getScheme`, rootless
("non-hierarchical") URLs, authority/host extraction with userinfo
stripping, port syntax, host character and percent-escape validity.
Components are kept in raw (unescaped) form; `ForceQuery`/`OmitHost`
bookkeeping flags are not modelled since nothing here reads them. -/

/-- Result of `url.Parse`: the components of a Go `url.URL` read by the
configuration code (`opq` is Go's non-hierarchical component field). -/
structure GoURL where
  scheme : String := ""
  host : String := ""
  path : String := ""
  opq : String := ""
  rawQuery : String := ""
  fragment : String := ""
deriving DecidableEq, Repr

/-- `stringContainsCTLByte`: any byte below 0x20 or equal to 0x7f. -/
def containsCTL (l : List Char) : Bool :=
  l.any (fun c => c.toNat < 32 || c.toNat = 127)

/-- Loop of `getScheme`: scan for a `scheme:` prefix; letters anywhere,
digits and `+ - .` after the first position; anything else means the URL
has no scheme. -/
def getSchemeLoop (raw : List Char) : List Char → Nat → Except String (List Char × List Char)
  | [], _ => .ok ([], raw)
  | c :: rest, i =>
    if c.isAlpha then getSchemeLoop raw rest (i + 1)
    else if c.isDigit ∨ c = '+' ∨ c = '-' ∨ c = '.' then
      if i = 0 then .ok ([], raw) else getSchemeLoop raw rest (i + 1)
    else if c = ':' then
      if i = 0 then .error "missing protocol scheme"
      else .ok (raw.take i, raw.drop (i + 1))
    else .ok ([], raw)

/-- `getScheme rawURL = (scheme, rest)`. -/
def getScheme (raw : List Char) : Except String (List Char × List Char) :=
  getSchemeLoop raw raw 0

/-- Cut a character list at the first occurrence of `sep`; `none` when
`sep` does not occur. -/
def cutAt (sep : Char) (l : List Char) : List Char × Option (List Char) :=
  let pre := l.takeWhile (fun c => c ≠ sep)
  match l.dropWhile (fun c => c ≠ sep) with
  | [] => (pre, none)
  | _ :: tail => (pre, some tail)

/-- Index of the last occurrence of `c` in `l`. -/
def lastIdxOf (c : Char) (l : List Char) : Option Nat :=
  match List.findIdx? (fun x => x = c) l.reverse with
  | none => none
  | some i => some (l.length - 1 - i)

/-- Hexadecimal digit test (`ishex`). -/
def isHexDigitChar (c : Char) : Bool :=
  c.isDigit || (97 ≤ c.toNat && c.toNat ≤ 102) || (65 ≤ c.toNat && c.toNat ≤ 70)

/-- `validOptionalPort`: empty, or a colon followed by decimal digits. -/
def validOptionalPort : List Char → Bool
  | [] => true
  | c :: rest => c = ':' && rest.all Char.isDigit

/-- Characters `shouldEscape` leaves bare in a host component: unreserved
characters and the sub-delimiters Go admits in hosts. -/
def hostCharOk (c : Char) : Bool :=
  c.isAlphanum ||
    ['-', '.', '_', Char.ofNat 126, '!', '$', '&', Char.ofNat 39, '(', ')',
     '*', '+', ',', ';', '=', ':', '[', ']', '<', '>',
     Char.ofNat 34].contains c

/-- One pass of `unescape(host, encodeHost)`: validates percent escapes
(rejecting escaped ASCII below 0x80 other than `%25`) and rejects host
characters that would need escaping. -/
def checkHost : List Char → Except String Unit
  | [] => .ok ()
  | '%' :: a :: b :: rest =>
    if isHexDigitChar a && isHexDigitChar b then
      if a.isDigit && a.toNat - 48 < 8 && ¬(a = '2' ∧ b = '5') then
        .error ("invalid URL escape " ++ goQuote (String.mk ['%', a, b]))
      else if ¬ a.isDigit then
        .error ("invalid URL escape " ++ goQuote (String.mk ['%', a, b]))
      else checkHost rest
    else .error ("invalid URL escape " ++ goQuote (String.mk ['%', a, b]))
  | '%' :: rest => .error ("invalid URL escape " ++ goQuote (String.mk ('%' :: rest)))
  | c :: rest =>
    if c.toNat ≥ 128 || hostCharOk c then checkHost rest
    else .error ("invalid character " ++ goQuote (String.mk [c]) ++ " in host name")

/-- Percent-escape validity for path and fragment components
(`unescape` with `encodePath`/`encodeFragment`). -/
def checkPercent : List Char → Except String Unit
  | [] => .ok ()
  | '%' :: a :: b :: rest =>
    if isHexDigitChar a && isHexDigitChar b then checkPercent rest
    else .error ("invalid URL escape " ++ goQuote (String.mk ['%', a, b]))
  | '%' :: rest => .error ("invalid URL escape " ++ goQuote (String.mk ('%' :: rest)))
  | _ :: rest => checkPercent rest

/-- `parseHost`: bracketed-host closing and port syntax, then the host
character scan.  Returns the (raw) host on success. -/
def parseHost (host : List Char) : Except String (List Char) :=
  if ['['].isPrefixOf host then
    match lastIdxOf ']' host with
    | none => .error "missing ']' in host"
    | some i =>
      let colonPort := host.drop (i + 1)
      if ¬ validOptionalPort colonPort then
        .error ("invalid port " ++ goQuote (String.mk colonPort) ++ " after host")
      else
        match checkHost host with
        | .ok _ => .ok host
        | .error e => .error e
  else
    match lastIdxOf ':' host with
    | some i =>
      let colonPort := host.drop i
      if ¬ validOptionalPort colonPort then
        .error ("invalid port " ++ goQuote (String.mk colonPort) ++ " after host")
      else
        match checkHost host with
        | .ok _ => .ok host
        | .error e => .error e
    | none =>
      match checkHost host with
      | .ok _ => .ok host
      | .error e => .error e

/-- Characters `validUserinfo` admits in the userinfo subcomponent. -/
def validUserinfoChar (c : Char) : Bool :=
  c.isAlphanum ||
    ['-', '.', '_', ':', Char.ofNat 126, '!', '$', '&', Char.ofNat 39, '(',
     ')', '*', '+', ',', ';', '=', '%', '@'].contains c

/-- `parseAuthority`: strip the userinfo at the last `@` (validating its
characters and escapes) and parse the remainder as the host. -/
def parseAuthority (authority : List Char) : Except String (List Char) :=
  match lastIdxOf '@' authority with
  | none => parseHost authority
  | some i =>
    let userinfo := authority.take i
    if ¬ userinfo.all validUserinfoChar then .error "net/url: invalid userinfo"
    else
      match checkPercent userinfo with
      | .error e => .error e
      | .ok _ => parseHost (authority.drop (i + 1))

/-- Body of `parse(rawURL, viaRequest := false)` applied to the part of
the URL before any fragment. -/
def urlParseBody (body : List Char) : Except String GoURL :=
  if containsCTL body then .error "net/url: invalid control character in URL"
  else if body = ['*'] then .ok { path := "*" }
  else
    match getScheme body with
    | .error e => .error e
    | .ok (schemeRaw, afterScheme) =>
      let scheme := String.mk (schemeRaw.map Char.toLower)
      let (rest, rawQuery) := cutAt '?' afterScheme
      let rawQueryStr := String.mk (rawQuery.getD [])
      if ¬ ['/'].isPrefixOf rest ∧ scheme ≠ "" then
        .ok { scheme := scheme, opq := String.mk rest, rawQuery := rawQueryStr }
      else if ¬ ['/'].isPrefixOf rest ∧ (rest.takeWhile (fun c => c ≠ '/')).contains ':' then
        .error "first path segment in URL cannot contain colon"
      else if (scheme ≠ "" ∨ ¬ ['/', '/', '/'].isPrefixOf rest) ∧ ['/', '/'].isPrefixOf rest then
        let afterSlashes := rest.drop 2
        let authority := afterSlashes.takeWhile (fun c => c ≠ '/')
        let pathPart := afterSlashes.drop authority.length
        match parseAuthority authority with
        | .error e => .error e
        | .ok host =>
          match checkPercent pathPart with
          | .error e => .error e
          | .ok _ =>
            .ok { scheme := scheme, host := String.mk host,
                  path := String.mk pathPart, rawQuery := rawQueryStr }
      else
        match checkPercent rest with
        | .error e => .error e
        | .ok _ =>
          .ok { scheme := scheme, path := String.mk rest, rawQuery := rawQueryStr }

/-- Model of `url.Parse`: split off the fragment at the first `#`, parse
the body, validate the fragment's escapes, and wrap any failure as Go's
`&url.Error{"parse", rawURL, err}` message. -/
def goURLParse (raw : String) : Except String GoURL :=
  let (body, frag) := cutAt '#' raw.data
  let result :=
    match urlParseBody body with
    | .error e => Except.error e
    | .ok u =>
      match frag with
      | none => Except.ok u
      | some f =>
        match checkPercent f with
        | .error e => Except.error e
        | .ok _ => Except.ok { u with fragment := String.mk f }
  match result with
  | .error e => .error ("parse " ++ goQuote raw ++ ": " ++ e)
  | .ok u => .ok u

/- ## Data model: the configuration section structs

`time.Duration` is an int64 count of nanoseconds, embedded as `Int`.
Field defaults are Go's zero values, so composite literals that omit
fields mean the same thing they mean in the source. -/

/-- One nanosecond, the unit of `time.Duration`. -/
def nanosecond : Int := 1

/-- `time.Second` in nanoseconds. -/
def second : Int := 1000000000

/-- `time.Minute` in nanoseconds. -/
def minute : Int := 60 * second

/-- `time.Hour` in nanoseconds. -/
def hour : Int := 60 * minute

/-- Placeholder for the repository's `UpstreamConfig` type, which is
declared outside this file's source; the configuration code only carries
a slice of them and never constructs or reads one. -/
inductive UpstreamConfig
  | mk
deriving DecidableEq, Repr

structure TimeoutConfig where
  Write : Int := 0
  Read : Int := 0
  Shutdown : Int := 0
deriving DecidableEq, Repr

structure ServerConfig where
  Port : Int := 0
  TimeoutConfig : TimeoutConfig := {}
deriving DecidableEq, Repr

structure ProviderConfig where
  ProviderType : String := ""
  ProviderSlug : String := ""
  Scope : String := ""
  ProviderURLExternal : String := ""
  ProviderURLInternal : String := ""
  ProviderSkipAuthPreflight : String := ""
deriving DecidableEq, Repr

structure CookieConfig where
  Name : String := ""
  Secret : String := ""
  Expire : Int := 0
  Domain : String := ""
  Secure : Bool := false
  HTTPOnly : Bool := false
  decodedSecret : List Nat := []
deriving DecidableEq, Repr

structure TTLConfig where
  Lifetime : Int := 0
  Valid : Int := 0
  GracePeriod : Int := 0
deriving DecidableEq, Repr

structure SessionConfig where
  CookieConfig : CookieConfig := {}
  TTLConfig : TTLConfig := {}
deriving DecidableEq, Repr

structure ClientConfig where
  ID : String := ""
  Secret : String := ""
deriving DecidableEq, Repr

structure StatsdConfig where
  Port : Int := 0
  Host : String := ""
deriving DecidableEq, Repr

structure MetricsConfig where
  StatsdConfig : StatsdConfig := {}
deriving DecidableEq, Repr

structure LoggingConfig where
  Enable : Bool := false
  Level : String := ""
deriving DecidableEq, Repr

structure EmailConfig where
  AllowedDomains : List String := []
  AllowedAddresses : List String := []
deriving DecidableEq, Repr

structure DefaultConfig where
  EmailConfig : EmailConfig := {}
  AllowedGroups : List String := []
  ProviderSlug : String := ""
  Timeout : Int := 0
  ResetDeadline : Int := 0
deriving DecidableEq, Repr

structure UpstreamConfigs where
  DefaultConfig : DefaultConfig := {}
  ConfigsFile : String := ""
  testTemplateVars : List (String × String) := []
  upstreamConfigs : List UpstreamConfig := []
  Cluster : String := ""
  Scheme : String := ""
deriving DecidableEq, Repr

structure RequestSignerConfig where
  Key : String := ""
deriving DecidableEq, Repr

structure Configuration where
  ServerConfig : ServerConfig := {}
  ProviderConfig : ProviderConfig := {}
  ClientConfig : ClientConfig := {}
  SessionConfig : SessionConfig := {}
  UpstreamConfigs : UpstreamConfigs := {}
  MetricsConfig : MetricsConfig := {}
  LoggingConfig : LoggingConfig := {}
  RequestSignerConfig : RequestSignerConfig := {}
deriving DecidableEq, Repr

/- ## Validators

Each Go `Validate() error` becomes a function into `Option String`:
`none` for success, `some msg` for an error with message `msg`.
`xerrors.Errorf("prefix: %w", err)` renders as `"prefix: " ++ msg`. -/

def ProviderConfig.Validate (pc : ProviderConfig) : Option String :=
  if pc.ProviderType = "" then
    some ("invalid provider.type: " ++ goQuote pc.ProviderType)
  else if pc.ProviderSlug = "" then
    some ("invalid provider.slug: " ++ goQuote pc.ProviderSlug)
  else if pc.ProviderURLExternal = "" then
    some ("invalid provider.url_external: " ++ goQuote pc.ProviderURLExternal)
  else
    match goURLParse pc.ProviderURLExternal with
    | .error e => some e
    | .ok providerURLExternal =>
      if providerURLExternal.scheme = "" ∨ providerURLExternal.host = "" then
        some "provider.url_external must include scheme and host"
      else if pc.ProviderURLInternal = "" then
        some ("invalid provider.url_internal: " ++ goQuote pc.ProviderURLInternal)
      else
        match goURLParse pc.ProviderURLInternal with
        | .error e => some ("invalid pc.url_internal configured: " ++ goQuote e)
        | .ok providerURLInternal =>
          if providerURLInternal.scheme = "" ∨ providerURLInternal.host = "" then
            some "proxy provider url must include scheme and host"
          else none

/-- The message of the empty-secret error in `CookieConfig.Validate`. -/
def cookieSecretEmptyMsg : String :=
  "no cookie.secret configured"

/-- The message of the bad-base64 error in `CookieConfig.Validate`, for a
`CorruptInputError` at byte offset `p`. -/
def cookieSecretB64Msg (p : Nat) : String :=
  "invalid cookie.secret configured; expected base64-encoded bytes, as from `openssl rand 32 -base64`: "
    ++ goQuote (corruptInputErrorMsg p)

/-- The message of the wrong-decoded-length error in
`CookieConfig.Validate`, for a secret that decoded to `n` bytes. -/
def cookieSecretLenMsg (n : Nat) : String :=
  "Invalid value for cookie.secret; must decode to 32 or 64 bytes, but decoded to "
    ++ toString n ++ " bytes"

/-- The message of the invalid-cookie-name error in
`CookieConfig.Validate`. -/
def cookieNameMsg (n : String) : String :=
  "invalid cc.name: " ++ goQuote n

/-- The `for _, i := range []int{32, 64}` loop of `CookieConfig.Validate`
computing `validCookieSecretLength`, kept as the fold it is in the
source. -/
def validCookieSecretLength (decoded : List Nat) : Bool :=
  [32, 64].foldl (fun acc i => if decoded.length = i then true else acc) false

/-- The body of `CookieConfig.Validate` with the receiver passed
explicitly as state: the first component is the method-local receiver
after the body ran (the Go receiver is a value, so this copy is discarded
at return), the second is the returned error.  In the valid-length branch
the source assigns `cc.decodedSecret = decodedCookieSecret` before the
name check, so the local receiver carries the decoded secret there. -/
def CookieConfig.validateBody (cc : CookieConfig) : CookieConfig × Option String :=
  if cc.Secret = "" then
    (cc, some cookieSecretEmptyMsg)
  else
    match goBase64Decode cc.Secret with
    | .error p => (cc, some (cookieSecretB64Msg p))
    | .ok decodedCookieSecret =>
      if validCookieSecretLength decodedCookieSecret then
        if goCookieString cc.Name = "" then
          ({ cc with decodedSecret := decodedCookieSecret }, some (cookieNameMsg cc.Name))
        else ({ cc with decodedSecret := decodedCookieSecret }, none)
      else
        (cc, some (cookieSecretLenMsg decodedCookieSecret.length))

/-- `CookieConfig.Validate`: the error returned by the body; the
method-local receiver copy is discarded (value receiver). -/
def CookieConfig.Validate (cc : CookieConfig) : Option String :=
  (CookieConfig.validateBody cc).2

/-- A Go method call on a value receiver: the receiver is copied into the
method, so the caller's value is returned unchanged next to the result. -/
def CookieConfig.callValidate (cc : CookieConfig) : CookieConfig × Option String :=
  (cc, CookieConfig.Validate cc)

def TTLConfig.Validate (_ : TTLConfig) : Option String :=
  none

def SessionConfig.Validate (sc : SessionConfig) : Option String :=
  match CookieConfig.Validate sc.CookieConfig with
  | some e => some ("invalid session.cookie config: " ++ e)
  | none =>
    match TTLConfig.Validate sc.TTLConfig with
    | some e => some ("invalid session.ttl config: " ++ e)
    | none => none

def ClientConfig.Validate (cc : ClientConfig) : Option String :=
  if cc.ID = "" then some "no client.id configured"
  else if cc.Secret = "" then some "no client.secret configured"
  else none

def TimeoutConfig.Validate (_ : TimeoutConfig) : Option String :=
  none

def ServerConfig.Validate (sc : ServerConfig) : Option String :=
  if sc.Port = 0 then some "no server.port configured"
  else
    match TimeoutConfig.Validate sc.TimeoutConfig with
    | some e => some ("invalid server.timeout config: " ++ e)
    | none => none

def StatsdConfig.Validate (sc : StatsdConfig) : Option String :=
  if sc.Host = "" then some "no statsd.host configured"
  else if sc.Port = 0 then some " no statsd.port configured"
  else none

def MetricsConfig.Validate (mc : MetricsConfig) : Option String :=
  match StatsdConfig.Validate mc.StatsdConfig with
  | some e => some ("invalid metrics.statsd config: " ++ e)
  | none => none

def LoggingConfig.Validate (_ : LoggingConfig) : Option String :=
  none

/-- `UpstreamConfigs.Validate` probes the filesystem with `os.Open`; the
filesystem is passed as an oracle `fs` giving, for a path, the `os.Open`
error message, or `none` when the file opens (it is closed right away). -/
def UpstreamConfigs.Validate (fs : String → Option String) (uc : UpstreamConfigs) : Option String :=
  let fileCheck : Option String :=
    if uc.ConfigsFile ≠ "" then
      match fs uc.ConfigsFile with
      | some e => some ("invalid upstream.config filepath: " ++ e)
      | none => none
    else none
  match fileCheck with
  | some e => some e
  | none =>
    if uc.Cluster = "" then some "no upstream.config cluster configured"
    else none

def DefaultConfig.Validate (_ : DefaultConfig) : Option String :=
  none

def EmailConfig.Validate (_ : EmailConfig) : Option String :=
  none

def RequestSignerConfig.Validate (_ : RequestSignerConfig) : Option String :=
  none

/-- `Configuration.Validate`: the fail-fast cascade over the child
sections, in source order, each failure wrapped with the static prefix
the source uses for that branch (including the source's mislabelled
prefixes for the client, logging and request-signer branches). -/
def Configuration.Validate (fs : String → Option String) (c : Configuration) : Option String :=
  match ServerConfig.Validate c.ServerConfig with
  | some e => some ("invalid server config: " ++ e)
  | none =>
  match ProviderConfig.Validate c.ProviderConfig with
  | some e => some ("invalid provider config: " ++ e)
  | none =>
  match SessionConfig.Validate c.SessionConfig with
  | some e => some ("invalid session config: " ++ e)
  | none =>
  match ClientConfig.Validate c.ClientConfig with
  | some e => some ("invalid session config: " ++ e)
  | none =>
  match UpstreamConfigs.Validate fs c.UpstreamConfigs with
  | some e => some ("invalid upstream config: " ++ e)
  | none =>
  match MetricsConfig.Validate c.MetricsConfig with
  | some e => some ("invalid metrics config: " ++ e)
  | none =>
  match LoggingConfig.Validate c.LoggingConfig with
  | some e => some ("invalid metrics config: " ++ e)
  | none =>
  match RequestSignerConfig.Validate c.RequestSignerConfig with
  | some e => some ("invalid metrics config: " ++ e)
  | none => none

/- ## Defaults provider -/

/-- `DefaultProxyConfig`: the production defaults; every field not listed
in the source's composite literal is Go's zero value. -/
def DefaultProxyConfig : Configuration :=
  { ServerConfig :=
      { Port := 4180
        TimeoutConfig :=
          { Write := 30 * second
            Read := 30 * second
            Shutdown := 30 * second } }
    ProviderConfig :=
      { ProviderType := "sso"
        ProviderSlug := "google" }
    SessionConfig :=
      { CookieConfig :=
          { Name := "_sso_proxy"
            Expire := 168 * hour
            Secure := true
            HTTPOnly := true }
        TTLConfig :=
          { Lifetime := 720 * hour
            Valid := 60 * second
            GracePeriod := 3 * hour } }
    UpstreamConfigs :=
      { DefaultConfig :=
          { Timeout := 10 * second
            ResetDeadline := 60 * second }
        Scheme := "https" }
    LoggingConfig :=
      { Enable := true
        Level := "INFO" }
    MetricsConfig :=
      { StatsdConfig :=
          { Port := 8125
            Host := "localhost" } } }

/- ## Override/decode engine and loader -/

/-- Digits of a decimal literal to its value. -/
def digitsToNat (l : List Char) : Nat :=
  l.foldl (fun acc c => acc * 10 + (c.toNat - 48)) 0

/-- Modelled from the spec: nanoseconds per duration unit of the standard
duration literal syntax (the spec's string → duration coercion, examples
"60s", "3h"); the decode engine itself is library code not under src/. -/
def durUnitNanos (u : String) : Option Int :=
  if u = "ns" then some nanosecond
  else if u = "us" then some 1000
  else if u = "ms" then some 1000000
  else if u = "s" then some second
  else if u = "m" then some minute
  else if u = "h" then some hour
  else none

/-- Modelled from the spec: loop of the duration parser, consuming
`digits unit` terms; `fuel` bounds the recursion by the input length. -/
def parseDurLoop : Nat → List Char → Int → Option Int
  | _, [], acc => some acc
  | 0, _, _ => none
  | fuel + 1, cs, acc =>
    let ds := cs.takeWhile Char.isDigit
    let rest1 := cs.dropWhile Char.isDigit
    if ds.isEmpty then none
    else
      let us := rest1.takeWhile Char.isAlpha
      let rest2 := rest1.dropWhile Char.isAlpha
      match durUnitNanos (String.mk us) with
      | none => none
      | some mult => parseDurLoop fuel rest2 (acc + (digitsToNat ds : Int) * mult)

/-- Modelled from the spec: the string → duration coercion accepting
standard duration literals built from integer `digits unit` terms. -/
def parseGoDuration (s : String) : Option Int :=
  if s = "" then none else parseDurLoop (s.data.length + 1) s.data 0

/-- Decimal string to a (non-negative) integer; fails on anything else. -/
def parseGoInt (s : String) : Option Int :=
  if s ≠ "" ∧ s.data.all Char.isDigit then some (digitsToNat s.data : Int)
  else none

/-- `strconv.ParseBool`'s accepted spellings. -/
def parseGoBool (s : String) : Option Bool :=
  if ["1", "t", "T", "TRUE", "true", "True"].contains s then some true
  else if ["0", "f", "F", "FALSE", "false", "False"].contains s then some false
  else none

/-- Modelled from the spec: the string → ordered list coercion
(comma-separated). -/
def splitCommaList (s : String) : List String :=
  s.splitOn ","

/-- A setter applies one external key's value to the configuration,
failing with a descriptive error on a malformed value. -/
def Setter : Type :=
  String → Configuration → Except String Configuration

/-- Lift a coercion into a `Setter`, with the descriptive decode error
the spec requires for malformed values. -/
def coerceSetter (α : Type) (key : String) (coerce : String → Option α)
    (upd : Configuration → α → Configuration) : Setter :=
  fun v c =>
    match coerce v with
    | some a => .ok (upd c a)
    | none => .error ("error decoding " ++ key ++ ": unparsable value " ++ goQuote v)

/-- A `Setter` for a plain string field (never fails). -/
def strSetter (upd : Configuration → String → Configuration) : Setter :=
  fun v c => .ok (upd c v)

/-- Modelled from the spec: the declarative mapping table of the
override/decode engine — one (external key, setter) pair per recognized
key, in the order of the source's documented key list, with the spec's
string → duration and string → list coercions.  The engine realized by
go-micro's env source plus mapstructure is external library code not
under src/. -/
def overrideTable : List (String × Setter) :=
  [ ("SESSION_COOKIE_NAME", strSetter (fun c v =>
      { c with SessionConfig.CookieConfig.Name := v })),
    ("SESSION_COOKIE_SECRET", strSetter (fun c v =>
      { c with SessionConfig.CookieConfig.Secret := v })),
    ("SESSION_COOKIE_EXPIRE", coerceSetter Int "SESSION_COOKIE_EXPIRE" parseGoDuration (fun c v =>
      { c with SessionConfig.CookieConfig.Expire := v })),
    ("SESSION_COOKIE_DOMAIN", strSetter (fun c v =>
      { c with SessionConfig.CookieConfig.Domain := v })),
    ("SESSION_COOKIE_HTTPONLY", coerceSetter Bool "SESSION_COOKIE_HTTPONLY" parseGoBool (fun c v =>
      { c with SessionConfig.CookieConfig.HTTPOnly := v })),
    ("SESSION_TTL_LIFETIME", coerceSetter Int "SESSION_TTL_LIFETIME" parseGoDuration (fun c v =>
      { c with SessionConfig.TTLConfig.Lifetime := v })),
    ("SESSION_TTL_VALID", coerceSetter Int "SESSION_TTL_VALID" parseGoDuration (fun c v =>
      { c with SessionConfig.TTLConfig.Valid := v })),
    ("SESSION_TTL_GRACEPERIOD", coerceSetter Int "SESSION_TTL_GRACEPERIOD" parseGoDuration (fun c v =>
      { c with SessionConfig.TTLConfig.GracePeriod := v })),
    ("REQUESTSIGNER_KEY", strSetter (fun c v =>
      { c with RequestSignerConfig.Key := v })),
    ("CLIENT_ID", strSetter (fun c v =>
      { c with ClientConfig.ID := v })),
    ("CLIENT_SECRET", strSetter (fun c v =>
      { c with ClientConfig.Secret := v })),
    ("SERVER_PORT", coerceSetter Int "SERVER_PORT" parseGoInt (fun c v =>
      { c with ServerConfig.Port := v })),
    ("SERVER_TIMEOUT_SHUTDOWN", coerceSetter Int "SERVER_TIMEOUT_SHUTDOWN" parseGoDuration (fun c v =>
      { c with ServerConfig.TimeoutConfig.Shutdown := v })),
    ("SERVER_TIMEOUT_READ", coerceSetter Int "SERVER_TIMEOUT_READ" parseGoDuration (fun c v =>
      { c with ServerConfig.TimeoutConfig.Read := v })),
    ("SERVER_TIMEOUT_WRITE", coerceSetter Int "SERVER_TIMEOUT_WRITE" parseGoDuration (fun c v =>
      { c with ServerConfig.TimeoutConfig.Write := v })),
    ("METRICS_STATSD_HOST", strSetter (fun c v =>
      { c with MetricsConfig.StatsdConfig.Host := v })),
    ("METRICS_STATSD_PORT", coerceSetter Int "METRICS_STATSD_PORT" parseGoInt (fun c v =>
      { c with MetricsConfig.StatsdConfig.Port := v })),
    ("LOGGING_ENABLE", coerceSetter Bool "LOGGING_ENABLE" parseGoBool (fun c v =>
      { c with LoggingConfig.Enable := v })),
    ("LOGGING_LEVEL", strSetter (fun c v =>
      { c with LoggingConfig.Level := v })),
    ("UPSTREAM_DEFAULT_EMAIL_DOMAINS", strSetter (fun c v =>
      { c with UpstreamConfigs.DefaultConfig.EmailConfig.AllowedDomains := splitCommaList v })),
    ("UPSTREAM_DEFAULT_EMAIL_ADDRESSES", strSetter (fun c v =>
      { c with UpstreamConfigs.DefaultConfig.EmailConfig.AllowedAddresses := splitCommaList v })),
    ("UPSTREAM_DEFAULT_EMAIL_GROUPS", strSetter (fun c v =>
      { c with UpstreamConfigs.DefaultConfig.AllowedGroups := splitCommaList v })),
    ("UPSTREAM_DEFAULT_TIMEOUT", coerceSetter Int "UPSTREAM_DEFAULT_TIMEOUT" parseGoDuration (fun c v =>
      { c with UpstreamConfigs.DefaultConfig.Timeout := v })),
    ("UPSTREAM_DEFAULT_TCP_RESET_DEADLINE", coerceSetter Int "UPSTREAM_DEFAULT_TCP_RESET_DEADLINE" parseGoDuration (fun c v =>
      { c with UpstreamConfigs.DefaultConfig.ResetDeadline := v })),
    ("UPSTREAM_DEFAULT_PROVIDER_SLUG", strSetter (fun c v =>
      { c with UpstreamConfigs.DefaultConfig.ProviderSlug := v })),
    ("UPSTREAM_CONFIGS_FILE", strSetter (fun c v =>
      { c with UpstreamConfigs.ConfigsFile := v })),
    ("UPSTREAM_SCHEME", strSetter (fun c v =>
      { c with UpstreamConfigs.Scheme := v })),
    ("UPSTREAM_CLUSTER", strSetter (fun c v =>
      { c with UpstreamConfigs.Cluster := v })),
    ("PROVIDER_TYPE", strSetter (fun c v =>
      { c with ProviderConfig.ProviderType := v })),
    ("PROVIDER_URL_EXTERNAL", strSetter (fun c v =>
      { c with ProviderConfig.ProviderURLExternal := v })),
    ("PROVIDER_URL_INTERNAL", strSetter (fun c v =>
      { c with ProviderConfig.ProviderURLInternal := v })),
    ("PROVIDER_SLUG", strSetter (fun c v =>
      { c with ProviderConfig.ProviderSlug := v })),
    ("PROVIDER_SCOPE", strSetter (fun c v =>
      { c with ProviderConfig.Scope := v })) ]

/-- The set of recognized external keys. -/
def recognizedKeys : List String :=
  overrideTable.map Prod.fst

/-- One step of the decode fold: skip an entry whose key the source does
not set, apply its setter otherwise, and propagate an earlier failure. -/
def decodeStep (src : List (String × String)) (acc : Except String Configuration)
    (kv : String × Setter) : Except String Configuration :=
  match acc with
  | .error e => .error e
  | .ok cfg =>
    match List.lookup kv.1 src with
    | none => .ok cfg
    | some v => kv.2 v cfg

/-- Modelled from the spec: apply the override table to a baseline
configuration against an external key → value source (first binding of a
key wins), in the table's fixed order; unset keys leave the default
untouched, unknown keys are never consulted, a malformed value fails the
decode. -/
def decodeOverrides (src : List (String × String)) (c : Configuration) : Except String Configuration :=
  overrideTable.foldl (decodeStep src) (.ok c)

/-- Modelled from the spec: `LoadConfig` — defaults, then the decode
engine over the external source; a decode-stage error is returned
alongside the not-yet-overridden value.  Validation is not invoked. -/
def LoadConfig (src : List (String × String)) : Configuration × Option String :=
  let c := DefaultProxyConfig
  match decodeOverrides src c with
  | .ok c2 => (c2, none)
  | .error e => (c, some e)

/- ## Concrete configurations used in the theorems -/

/-- A provider section that passes `ProviderConfig.Validate`: both URLs
parse with scheme and host present. -/
def validProviderConfig : ProviderConfig :=
  { ProviderType := "sso", ProviderSlug := "google", Scope := "test",
    ProviderURLExternal := "https://sso-external.com",
    ProviderURLInternal := "https://sso-internal.com" }

/-- The defaults with server, provider and session sections made valid
(the cookie secret is the repository test suite's 32-byte secret) while
the client section keeps its empty (invalid) id and secret, so that
validation first fails at the client branch. -/
def clientMislabeledConfig : Configuration :=
  { DefaultProxyConfig with
      ProviderConfig.ProviderURLExternal := "https://sso-external.com",
      ProviderConfig.ProviderURLInternal := "https://sso-internal.com",
      SessionConfig.CookieConfig.Secret := "SMoPfinxNz0fuaGFPUr5vwQpvoG+CGcLd2nkxRVI+H4=" }

/- ## Helper lemmas -/

/-- Strings differing at some character position are distinct. -/
theorem ne_of_charAt (s t : String) (i : Nat) (a b : Char)
    (ha : s.data.get? i = some a) (hb : t.data.get? i = some b) (hab : a ≠ b) : s ≠ t := by
  intro he
  rw [he, hb] at ha
  exact hab (Option.some.inj ha).symm

/-- An empty cookie secret fails with the empty-secret message. -/
theorem cookieValidate_empty (cc : CookieConfig) (h : cc.Secret = "") :
    CookieConfig.Validate cc = some cookieSecretEmptyMsg := by
  simp [CookieConfig.Validate, CookieConfig.validateBody, h]

/-- A secret that is not valid base64 fails with the bad-base64 message
carrying the corrupt byte's offset. -/
theorem cookieValidate_b64err (cc : CookieConfig) (p : Nat)
    (hp : goBase64Decode cc.Secret = .error p) :
    CookieConfig.Validate cc = some (cookieSecretB64Msg p) := by
  have hne : ¬ cc.Secret = "" := by
    intro h0
    rw [h0] at hp
    exact Except.noConfusion hp
  simp [CookieConfig.Validate, CookieConfig.validateBody, hne, hp]

/-- A secret that decodes to neither 32 nor 64 bytes fails with the
wrong-length message carrying the decoded byte count. -/
theorem cookieValidate_badlen (cc : CookieConfig) (b : List Nat)
    (hne : cc.Secret ≠ "") (hb : goBase64Decode cc.Secret = .ok b)
    (h32 : b.length ≠ 32) (h64 : b.length ≠ 64) :
    CookieConfig.Validate cc = some (cookieSecretLenMsg b.length) := by
  simp [CookieConfig.Validate, CookieConfig.validateBody, validCookieSecretLength,
    hne, hb, h32, h64]

/-- The cookie-name error can only be produced once the secret has
decoded to exactly 32 or 64 bytes. -/
theorem cookieValidate_name_reached (cc : CookieConfig)
    (h : CookieConfig.Validate cc = some (cookieNameMsg cc.Name)) :
    ∃ b, goBase64Decode cc.Secret = .ok b ∧ (b.length = 32 ∨ b.length = 64) := by
  by_cases hs : cc.Secret = ""
  · rw [cookieValidate_empty cc hs] at h
    exact absurd (Option.some.inj h)
      (ne_of_charAt _ _ 0 'n' 'i' rfl rfl (by decide))
  · cases hd : goBase64Decode cc.Secret with
    | error p =>
      rw [cookieValidate_b64err cc p hd] at h
      exact absurd (Option.some.inj h)
        (ne_of_charAt _ _ 9 'o' 'c' rfl rfl (by decide))
    | ok b =>
      by_cases h32 : b.length = 32
      · exact ⟨b, rfl, Or.inl h32⟩
      · by_cases h64 : b.length = 64
        · exact ⟨b, rfl, Or.inr h64⟩
        · rw [cookieValidate_badlen cc b hs hd h32 h64] at h
          exact absurd (Option.some.inj h)
            (ne_of_charAt _ _ 0 'I' 'i' rfl rfl (by decide))

/-- A provider section validates only with non-empty, parseable URLs
whose scheme and host are both present. -/
theorem providerValidate_none_urls (pc : ProviderConfig)
    (h : ProviderConfig.Validate pc = none) :
    pc.ProviderURLExternal ≠ "" ∧ pc.ProviderURLInternal ≠ "" ∧
    (∃ u, goURLParse pc.ProviderURLExternal = .ok u ∧ u.scheme ≠ "" ∧ u.host ≠ "") ∧
    (∃ u, goURLParse pc.ProviderURLInternal = .ok u ∧ u.scheme ≠ "" ∧ u.host ≠ "") := by
  unfold ProviderConfig.Validate at h
  by_cases h1 : pc.ProviderType = ""
  · simp [h1] at h
  · rw [if_neg h1] at h
    by_cases h2 : pc.ProviderSlug = ""
    · simp [h2] at h
    · rw [if_neg h2] at h
      by_cases h3 : pc.ProviderURLExternal = ""
      · simp [h3] at h
      · rw [if_neg h3] at h
        cases he : goURLParse pc.ProviderURLExternal with
        | error e => rw [he] at h; exact Option.noConfusion h
        | ok u =>
          simp only [he] at h
          by_cases h4 : u.scheme = "" ∨ u.host = ""
          · simp [h4] at h
          · rw [if_neg h4] at h
            push_neg at h4
            by_cases h5 : pc.ProviderURLInternal = ""
            · simp [h5] at h
            · rw [if_neg h5] at h
              cases hi : goURLParse pc.ProviderURLInternal with
              | error e2 => rw [hi] at h; exact Option.noConfusion h
              | ok u2 =>
                simp only [hi] at h
                by_cases h6 : u2.scheme = "" ∨ u2.host = ""
                · simp [h6] at h
                · push_neg at h6
                  exact ⟨h3, h5, ⟨u, rfl, h4.1, h4.2⟩, ⟨u2, rfl, h6.1, h6.2⟩⟩

/-- An external URL of `"not-a-url"` parses with empty scheme and host,
so validation fails with the structural message. -/
theorem providerValidate_notaurl (pc : ProviderConfig)
    (ht : pc.ProviderType ≠ "") (hs : pc.ProviderSlug ≠ "")
    (h : pc.ProviderURLExternal = "not-a-url") :
    ProviderConfig.Validate pc =
      some "provider.url_external must include scheme and host" := by
  unfold ProviderConfig.Validate
  rw [if_neg ht, if_neg hs, h]
  rw [show goURLParse "not-a-url" = Except.ok ({ path := "not-a-url" } : GoURL) from by decide]
  simp

/-- An empty external URL fails with the empty-URL message. -/
theorem providerValidate_emptyurl (pc : ProviderConfig)
    (ht : pc.ProviderType ≠ "") (hs : pc.ProviderSlug ≠ "")
    (h : pc.ProviderURLExternal = "") :
    ProviderConfig.Validate pc =
      some ("invalid provider.url_external: " ++ goQuote "") := by
  unfold ProviderConfig.Validate
  rw [if_neg ht, if_neg hs, h]
  simp

/-- Looking up a key that no source entry carries yields nothing. -/
theorem lookup_none_of_disjoint (k : String) (src : List (String × String))
    (h : ∀ a b, (a, b) ∈ src → a ≠ k) : List.lookup k src = none := by
  induction src with
  | nil => rfl
  | cons kv rest ih =>
    have h1 : kv.1 ≠ k := h kv.1 kv.2 (by simp)
    have h2 : (k == kv.1) = false := beq_eq_false_iff_ne.mpr (Ne.symm h1)
    simp only [List.lookup, h2]
    exact ih (fun a b hm => h a b (List.mem_cons_of_mem _ hm))

/-- The decode fold over a table none of whose keys the source sets
leaves the configuration untouched. -/
theorem decode_foldl_skip (src : List (String × String)) (tbl : List (String × Setter))
    (cfg : Configuration) (h : ∀ p ∈ tbl, List.lookup p.1 src = none) :
    tbl.foldl (decodeStep src) (.ok cfg) = .ok cfg := by
  induction tbl generalizing cfg with
  | nil => rfl
  | cons p rest ih =>
    rw [List.foldl_cons]
    have hp : decodeStep src (.ok cfg) p = .ok cfg := by
      simp [decodeStep, h p (List.mem_cons_self p rest)]
    rw [hp]
    exact ih cfg (fun q hq => h q (List.mem_cons_of_mem _ hq))

/-- `LoadConfig` is the match on the decode result over the defaults. -/
theorem loadConfig_eq (src : List (String × String)) :
    LoadConfig src =
      match decodeOverrides src DefaultProxyConfig with
      | .ok c2 => (c2, none)
      | .error e => (DefaultProxyConfig, some e) := rfl

/- ## Claim theorems -/

/-- C1: the claim says every failing section is wrapped with a prefix
identifying that section itself; the code instead wraps a ClientConfig
failure with the session section's prefix (and would wrap LoggingConfig
and RequestSignerConfig failures — which cannot occur, their validators
always succeed — with the metrics prefix).  On a configuration whose
server, provider and session sections are valid and whose client id is
empty, `Configuration.Validate` returns
`"invalid session config: no client.id configured"`. -/
theorem validate_client_failure_mislabeled :
    clientMislabeledConfig.ClientConfig.ID = "" ∧
    ClientConfig.Validate clientMislabeledConfig.ClientConfig =
      some "no client.id configured" ∧
    Configuration.Validate (fun _ => none) clientMislabeledConfig =
      some "invalid session config: no client.id configured" ∧
    (∀ lc : LoggingConfig, LoggingConfig.Validate lc = none) ∧
    (∀ rsc : RequestSignerConfig, RequestSignerConfig.Validate rsc = none) :=
  ⟨rfl, rfl, rfl, fun _ => rfl, fun _ => rfl⟩

/-- C2: whenever the server port is zero, `Configuration.Validate`
returns exactly `"invalid server config: no server.port configured"`,
for every filesystem oracle and every value of all the other sections —
so no later section's validator contributes to the result. -/
theorem validate_port_zero (fs : String → Option String) (c : Configuration)
    (h : c.ServerConfig.Port = 0) :
    Configuration.Validate fs c =
      some "invalid server config: no server.port configured" := by
  have hs : ServerConfig.Validate c.ServerConfig = some "no server.port configured" := by
    simp [ServerConfig.Validate, h]
  unfold Configuration.Validate
  rw [hs]
  rfl

/-- Witness for C2 at the defaults with the port zeroed. -/
theorem validate_port_zero_witness :
    ({ DefaultProxyConfig with ServerConfig.Port := 0 } : Configuration).ServerConfig.Port = 0 ∧
    Configuration.Validate (fun _ => none) { DefaultProxyConfig with ServerConfig.Port := 0 } =
      some "invalid server config: no server.port configured" :=
  ⟨rfl, validate_port_zero _ _ rfl⟩

/-- C3: `CookieConfig.Validate` fails on an empty secret, on a secret
that is not valid standard base64, and on a secret whose decoded length
is neither 32 nor 64 bytes — the last message carrying the actual decoded
byte count — and the three failure messages are pairwise distinct. -/
theorem cookie_secret_validation (cc : CookieConfig) :
    (cc.Secret = "" → CookieConfig.Validate cc = some cookieSecretEmptyMsg) ∧
    (∀ p, goBase64Decode cc.Secret = .error p →
      CookieConfig.Validate cc = some (cookieSecretB64Msg p)) ∧
    (∀ b, cc.Secret ≠ "" → goBase64Decode cc.Secret = .ok b →
      b.length ≠ 32 → b.length ≠ 64 →
      CookieConfig.Validate cc = some (cookieSecretLenMsg b.length) ∧
      ∃ pre post, cookieSecretLenMsg b.length = pre ++ toString b.length ++ post) ∧
    (∀ p n, cookieSecretEmptyMsg ≠ cookieSecretB64Msg p ∧
      cookieSecretEmptyMsg ≠ cookieSecretLenMsg n ∧
      cookieSecretB64Msg p ≠ cookieSecretLenMsg n) :=
  ⟨fun h => cookieValidate_empty cc h,
   fun p hp => cookieValidate_b64err cc p hp,
   fun b hne hb h32 h64 =>
     ⟨cookieValidate_badlen cc b hne hb h32 h64, ⟨_, " bytes", rfl⟩⟩,
   fun _ _ => ⟨ne_of_charAt _ _ 0 'n' 'i' rfl rfl (by decide),
     ne_of_charAt _ _ 0 'n' 'I' rfl rfl (by decide),
     ne_of_charAt _ _ 0 'i' 'I' rfl rfl (by decide)⟩⟩

/-- Witness for C3: an empty secret, the non-base64 secret `"!!aa"`, and
a secret decoding to 16 bytes, each producing its distinct message. -/
theorem cookie_secret_validation_witness :
    (({ Secret := "" } : CookieConfig).Secret = "" ∧
      CookieConfig.Validate { Secret := "" } = some cookieSecretEmptyMsg) ∧
    (goBase64Decode ({ Secret := "!!aa" } : CookieConfig).Secret = .error 0 ∧
      CookieConfig.Validate { Secret := "!!aa" } = some (cookieSecretB64Msg 0)) ∧
    (CookieConfig.Validate { Secret := "AAAAAAAAAAAAAAAAAAAAAA==" } =
        some (cookieSecretLenMsg 16) ∧
      ∃ pre post, cookieSecretLenMsg 16 = pre ++ toString 16 ++ post) ∧
    (cookieSecretEmptyMsg ≠ cookieSecretB64Msg 0 ∧
      cookieSecretEmptyMsg ≠ cookieSecretLenMsg 16 ∧
      cookieSecretB64Msg 0 ≠ cookieSecretLenMsg 16) :=
  ⟨⟨rfl, (cookie_secret_validation _).1 rfl⟩,
   ⟨by decide, (cookie_secret_validation _).2.1 0 (by decide)⟩,
   (cookie_secret_validation { Secret := "AAAAAAAAAAAAAAAAAAAAAA==" }).2.2.1
     (List.replicate 16 0) (by decide) (by decide) (by decide) (by decide),
   (cookie_secret_validation { Secret := "x" }).2.2.2 0 16⟩

/-- C4: `ProviderConfig.Validate` succeeds only if both provider URLs are
non-empty, parse, and carry a non-empty scheme and host; the string
`"not-a-url"` is rejected with the structural message, which is distinct
from the rejection of an empty URL. -/
theorem provider_url_structural_validation (pc : ProviderConfig) :
    (ProviderConfig.Validate pc = none →
      pc.ProviderURLExternal ≠ "" ∧ pc.ProviderURLInternal ≠ "" ∧
      (∃ u, goURLParse pc.ProviderURLExternal = .ok u ∧ u.scheme ≠ "" ∧ u.host ≠ "") ∧
      (∃ u, goURLParse pc.ProviderURLInternal = .ok u ∧ u.scheme ≠ "" ∧ u.host ≠ "")) ∧
    (pc.ProviderType ≠ "" → pc.ProviderSlug ≠ "" → pc.ProviderURLExternal = "not-a-url" →
      ProviderConfig.Validate pc =
        some "provider.url_external must include scheme and host") ∧
    (pc.ProviderType ≠ "" → pc.ProviderSlug ≠ "" → pc.ProviderURLExternal = "" →
      ProviderConfig.Validate pc = some ("invalid provider.url_external: " ++ goQuote "")) ∧
    "provider.url_external must include scheme and host" ≠
      "invalid provider.url_external: " ++ goQuote "" :=
  ⟨providerValidate_none_urls pc, providerValidate_notaurl pc,
   providerValidate_emptyurl pc, by decide⟩

/-- Witness for C4 at a fully valid provider section and its two broken
variants. -/
theorem provider_url_structural_validation_witness :
    (validProviderConfig.ProviderURLExternal ≠ "" ∧
      validProviderConfig.ProviderURLInternal ≠ "" ∧
      (∃ u, goURLParse validProviderConfig.ProviderURLExternal = .ok u ∧
        u.scheme ≠ "" ∧ u.host ≠ "") ∧
      (∃ u, goURLParse validProviderConfig.ProviderURLInternal = .ok u ∧
        u.scheme ≠ "" ∧ u.host ≠ "")) ∧
    (ProviderConfig.Validate { validProviderConfig with ProviderURLExternal := "not-a-url" } =
      some "provider.url_external must include scheme and host") ∧
    (ProviderConfig.Validate { validProviderConfig with ProviderURLExternal := "" } =
      some ("invalid provider.url_external: " ++ goQuote "")) :=
  ⟨(provider_url_structural_validation validProviderConfig).1 (by decide),
   (provider_url_structural_validation
     { validProviderConfig with ProviderURLExternal := "not-a-url" }).2.1
     (by decide) (by decide) rfl,
   (provider_url_structural_validation
     { validProviderConfig with ProviderURLExternal := "" }).2.2.1
     (by decide) (by decide) rfl⟩

/-- C5: the defaults do not pass full validation — for every filesystem
oracle, `Configuration.Validate` on `DefaultProxyConfig` fails (at the
provider section, whose external URL is left empty by design). -/
theorem default_config_not_valid (fs : String → Option String) :
    Configuration.Validate fs DefaultProxyConfig =
      some ("invalid provider config: invalid provider.url_external: " ++ goQuote "") := rfl

/-- C6: when the decode stage fails, `LoadConfig` returns the error
together with the not-yet-overridden configuration, i.e. exactly
`DefaultProxyConfig`. -/
theorem load_decode_error_returns_defaults (src : List (String × String)) (e : String)
    (h : (LoadConfig src).2 = some e) : (LoadConfig src).1 = DefaultProxyConfig := by
  rw [loadConfig_eq] at h ⊢
  cases hd : decodeOverrides src DefaultProxyConfig with
  | ok c2 => rw [hd] at h; exact Option.noConfusion h
  | error e2 => rfl

/-- Witness for C6 at a source with a malformed duration value. -/
theorem load_decode_error_witness :
    (LoadConfig [("SERVER_TIMEOUT_WRITE", "bogus")]).2 =
      some ("error decoding SERVER_TIMEOUT_WRITE: unparsable value " ++ goQuote "bogus") ∧
    (LoadConfig [("SERVER_TIMEOUT_WRITE", "bogus")]).1 = DefaultProxyConfig :=
  ⟨by decide, load_decode_error_returns_defaults _
    ("error decoding SERVER_TIMEOUT_WRITE: unparsable value " ++ goQuote "bogus")
    (by decide)⟩

/-- C7: `DefaultProxyConfig` is a zero-argument pure value carrying the
documented production defaults, and two invocations are deep-equal. -/
theorem default_proxy_config_values :
    DefaultProxyConfig.ServerConfig.Port = 4180 ∧
    DefaultProxyConfig.ServerConfig.TimeoutConfig.Write = 30 * second ∧
    DefaultProxyConfig.ServerConfig.TimeoutConfig.Read = 30 * second ∧
    DefaultProxyConfig.ServerConfig.TimeoutConfig.Shutdown = 30 * second ∧
    DefaultProxyConfig.SessionConfig.CookieConfig.Expire = 168 * hour ∧
    DefaultProxyConfig.SessionConfig.TTLConfig.Lifetime = 720 * hour ∧
    DefaultProxyConfig.SessionConfig.TTLConfig.Valid = 60 * second ∧
    DefaultProxyConfig.SessionConfig.TTLConfig.GracePeriod = 3 * hour ∧
    DefaultProxyConfig.UpstreamConfigs.Scheme = "https" ∧
    DefaultProxyConfig.UpstreamConfigs.DefaultConfig.Timeout = 10 * second ∧
    DefaultProxyConfig.UpstreamConfigs.DefaultConfig.ResetDeadline = 60 * second ∧
    DefaultProxyConfig.MetricsConfig.StatsdConfig.Host = "localhost" ∧
    DefaultProxyConfig.MetricsConfig.StatsdConfig.Port = 8125 ∧
    DefaultProxyConfig.LoggingConfig.Enable = true ∧
    DefaultProxyConfig.LoggingConfig.Level = "INFO" ∧
    DefaultProxyConfig = DefaultProxyConfig :=
  ⟨rfl, rfl, rfl, rfl, rfl, rfl, rfl, rfl, rfl, rfl, rfl, rfl, rfl, rfl, rfl, rfl⟩

/-- C8: a source that sets no recognized key loads to exactly the
defaults, and is indistinguishable from loading with no keys at all. -/
theorem load_ignores_unknown_keys (src : List (String × String))
    (h : ∀ kv ∈ src, kv.1 ∉ recognizedKeys) :
    LoadConfig src = (DefaultProxyConfig, none) ∧ LoadConfig src = LoadConfig [] := by
  have hd : decodeOverrides src DefaultProxyConfig = .ok DefaultProxyConfig := by
    unfold decodeOverrides
    apply decode_foldl_skip
    intro p hp
    apply lookup_none_of_disjoint
    intro a b hm he
    have hmem : a ∈ recognizedKeys := by
      rw [he]
      exact List.mem_map_of_mem Prod.fst hp
    exact h (a, b) hm hmem
  constructor
  · rw [loadConfig_eq, hd]
  · rw [loadConfig_eq, hd, loadConfig_eq]
    rfl

/-- Witness for C8 at a one-entry source whose key is unrecognized. -/
theorem load_ignores_unknown_keys_witness :
    (∀ kv ∈ [("NOT_A_RECOGNIZED_KEY", "x")], kv.1 ∉ recognizedKeys) ∧
    LoadConfig [("NOT_A_RECOGNIZED_KEY", "x")] = (DefaultProxyConfig, none) ∧
    LoadConfig [("NOT_A_RECOGNIZED_KEY", "x")] = LoadConfig [] :=
  ⟨by decide,
   (load_ignores_unknown_keys _ (by decide)).1,
   (load_ignores_unknown_keys _ (by decide)).2⟩

/-- C9: calling `Validate` on a value receiver leaves the caller's
`CookieConfig` unchanged, and even the method-local receiver copy differs
from the original at most in the unexported `decodedSecret` field — every
declared field survives the body untouched. -/
theorem cookie_validate_value_receiver (cc : CookieConfig) :
    CookieConfig.callValidate cc = (cc, CookieConfig.Validate cc) ∧
    (CookieConfig.validateBody cc).1.Name = cc.Name ∧
    (CookieConfig.validateBody cc).1.Secret = cc.Secret ∧
    (CookieConfig.validateBody cc).1.Expire = cc.Expire ∧
    (CookieConfig.validateBody cc).1.Domain = cc.Domain ∧
    (CookieConfig.validateBody cc).1.Secure = cc.Secure ∧
    (CookieConfig.validateBody cc).1.HTTPOnly = cc.HTTPOnly := by
  refine ⟨rfl, ?_⟩
  unfold CookieConfig.validateBody
  repeat' split
  all_goals exact ⟨rfl, rfl, rfl, rfl, rfl, rfl⟩

/-- C10: the secret is checked before the name — all three secret
failures are returned unchanged for every value of the `Name` field, and
the cookie-name error can only arise once the secret has decoded to 32
or 64 bytes. -/
theorem cookie_secret_checked_before_name (cc : CookieConfig) (n : String) :
    (cc.Secret = "" →
      CookieConfig.Validate { cc with Name := n } = some cookieSecretEmptyMsg) ∧
    (∀ p, goBase64Decode cc.Secret = .error p →
      CookieConfig.Validate { cc with Name := n } = some (cookieSecretB64Msg p)) ∧
    (∀ b, cc.Secret ≠ "" → goBase64Decode cc.Secret = .ok b →
      b.length ≠ 32 → b.length ≠ 64 →
      CookieConfig.Validate { cc with Name := n } = some (cookieSecretLenMsg b.length)) ∧
    (CookieConfig.Validate cc = some (cookieNameMsg cc.Name) →
      ∃ b, goBase64Decode cc.Secret = .ok b ∧ (b.length = 32 ∨ b.length = 64)) :=
  ⟨fun h => cookieValidate_empty _ h,
   fun p hp => cookieValidate_b64err _ p hp,
   fun b hne hb h32 h64 => cookieValidate_badlen _ b hne hb h32 h64,
   fun h => cookieValidate_name_reached cc h⟩

/-- Witness for C10: with the invalid name `"bad name"`, each kind of bad
secret still yields the secret's own error, and the name error at a valid
secret implies a 32-byte decode. -/
theorem cookie_secret_checked_before_name_witness :
    (CookieConfig.Validate { Name := "bad name", Secret := "" } =
      some cookieSecretEmptyMsg) ∧
    (CookieConfig.Validate { Name := "bad name", Secret := "!!aa" } =
      some (cookieSecretB64Msg 0)) ∧
    (CookieConfig.Validate { Name := "bad name", Secret := "AAAAAAAAAAAAAAAAAAAAAA==" } =
      some (cookieSecretLenMsg 16)) ∧
    (∃ b, goBase64Decode
        ({ Name := "bad name",
           Secret := "SMoPfinxNz0fuaGFPUr5vwQpvoG+CGcLd2nkxRVI+H4=" } : CookieConfig).Secret =
          .ok b ∧ (b.length = 32 ∨ b.length = 64)) :=
  ⟨(cookie_secret_checked_before_name { Secret := "" } "bad name").1 rfl,
   (cookie_secret_checked_before_name { Secret := "!!aa" } "bad name").2.1 0 (by decide),
   (cookie_secret_checked_before_name { Secret := "AAAAAAAAAAAAAAAAAAAAAA==" } "bad name").2.2.1
     (List.replicate 16 0) (by decide) (by decide) (by decide) (by decide),
   (cookie_secret_checked_before_name
     { Name := "bad name", Secret := "SMoPfinxNz0fuaGFPUr5vwQpvoG+CGcLd2nkxRVI+H4=" }
     "x").2.2.2 (by decide)⟩

end SsoProxy
